import Mathlib

/-!
Verification of `generate_test_payload.py`, a script that writes four
fixed binary payload files (`x86_test.bin`, `arm_test.bin`, `x64_test.bin`,
`test_payload.bin`) to the current working directory.

The embedding models the file system as an association list from file
names to byte contents (bytes as `Nat`, each < 256 in every payload the
program writes).  A write either succeeds — updating the file system and
appending a chronological log entry — or fails, modelled by a writability
oracle `w : String → Bool` standing for the OS accepting or rejecting the
`open(..., 'wb')`/`write` call.  A failed write raises in Python and
propagates out of `main`; here it returns `Except.error` carrying the
failed file name and the file-system state at the moment of failure
(already-written files remain).
-/

namespace PayloadGen

/-- Look a file up in the association-list file system. -/
def getFile : List (String × List Nat) → String → Option (List Nat)
  | [], _ => none
  | (m, d) :: rest, n => if m = n then some d else getFile rest n

/-- Create or overwrite a file in the association-list file system. -/
def setFile : List (String × List Nat) → String → List Nat → List (String × List Nat)
  | [], n, c => [(n, c)]
  | (m, d) :: rest, n, c => if m = n then (n, c) :: rest else (m, d) :: setFile rest n c

/-- State threaded through the run: the file system, plus a chronological
log of the write events that have happened (name, bytes written). -/
structure State where
  files : List (String × List Nat)
  log : List (String × List Nat)
deriving DecidableEq

/-- `open(name, 'wb'); f.write(content)`: succeeds when the oracle `w`
says the name is writable, otherwise the OS error propagates, carrying
the state at the moment of failure. -/
def writeFile (w : String → Bool) (s : State) (name : String) (content : List Nat) :
    Except (String × State) State :=
  if w name then
    Except.ok { files := setFile s.files name content, log := s.log ++ [(name, content)] }
  else
    Except.error (name, s)

/-- The bytes built by `generate_x86_payload` (source lines 15–39):
mov eax,1; add eax,100; inc eax; dec eax; push eax; pop eax; nop;
jmp short -16. -/
def x86_payload : List Nat :=
  [0xB8, 0x01, 0x00, 0x00, 0x00] ++
  [0x05, 0x64, 0x00, 0x00, 0x00] ++
  [0x40] ++
  [0x48] ++
  [0x50] ++
  [0x58] ++
  [0x90] ++
  [0xEB, 0xF0]

/-- The bytes built by `generate_arm_payload` (source lines 52–64):
mov r0,#1; add r0,r0,#100; cmp r0,#50; bne (backwards), little-endian. -/
def arm_payload : List Nat :=
  [0x01, 0x00, 0xA0, 0xE3] ++
  [0x64, 0x00, 0x80, 0xE2] ++
  [0x32, 0x00, 0x50, 0xE3] ++
  [0xF9, 0xFF, 0xFF, 0x1A]

/-- The bytes built by `generate_x64_payload` (source lines 77–98):
mov rax,1; add rax,100; inc rax; dec rax; push rax; pop rax;
jmp short -23. -/
def x64_payload : List Nat :=
  [0x48, 0xC7, 0xC0, 0x01, 0x00, 0x00, 0x00] ++
  [0x48, 0x05, 0x64, 0x00, 0x00, 0x00] ++
  [0x48, 0xFF, 0xC0] ++
  [0x48, 0xFF, 0xC8] ++
  [0x50] ++
  [0x58] ++
  [0xEB, 0xE9]

/-- The bytes built by `generate_simple_payload` (source line 111). -/
def simple_payload : List Nat :=
  [0x01, 0x02, 0x03, 0x04, 0x05, 0x06, 0x07, 0x08]

/-- `generate_x86_payload`: writes `x86_payload` to `x86_test.bin` and
returns (with the new state) the byte count it prints, `len(payload)`. -/
def generate_x86_payload (w : String → Bool) (s : State) :
    Except (String × State) (State × Nat) :=
  match writeFile w s "x86_test.bin" x86_payload with
  | Except.ok s2 => Except.ok (s2, x86_payload.length)
  | Except.error e => Except.error e

/-- `generate_arm_payload`: writes `arm_payload` to `arm_test.bin` and
returns the printed byte count. -/
def generate_arm_payload (w : String → Bool) (s : State) :
    Except (String × State) (State × Nat) :=
  match writeFile w s "arm_test.bin" arm_payload with
  | Except.ok s2 => Except.ok (s2, arm_payload.length)
  | Except.error e => Except.error e

/-- `generate_x64_payload`: writes `x64_payload` to `x64_test.bin` and
returns the printed byte count. -/
def generate_x64_payload (w : String → Bool) (s : State) :
    Except (String × State) (State × Nat) :=
  match writeFile w s "x64_test.bin" x64_payload with
  | Except.ok s2 => Except.ok (s2, x64_payload.length)
  | Except.error e => Except.error e

/-- `generate_simple_payload`: writes `simple_payload` to
`test_payload.bin` and returns the printed byte count. -/
def generate_simple_payload (w : String → Bool) (s : State) :
    Except (String × State) (State × Nat) :=
  match writeFile w s "test_payload.bin" simple_payload with
  | Except.ok s2 => Except.ok (s2, simple_payload.length)
  | Except.error e => Except.error e

/-- `main` (source lines 118–137): calls the four generators in order;
a raised write error aborts the rest and propagates to the caller. -/
def main (w : String → Bool) (s : State) : Except (String × State) State :=
  match generate_x86_payload w s with
  | Except.error e => Except.error e
  | Except.ok (s1, _) =>
    match generate_arm_payload w s1 with
    | Except.error e => Except.error e
    | Except.ok (s2, _) =>
      match generate_x64_payload w s2 with
      | Except.error e => Except.error e
      | Except.ok (s3, _) =>
        match generate_simple_payload w s3 with
        | Except.error e => Except.error e
        | Except.ok (s4, _) => Except.ok s4

/-- Little-endian byte decomposition of a 32-bit word, as four bytes. -/
def leWord (n : Nat) : List Nat :=
  [n % 256, n / 256 % 256, n / 65536 % 256, n / 16777216 % 256]

/-- The file-system contents after a successful full run of `main`:
each of the four payloads written in order, later writes on top. -/
def mainFiles (fs : List (String × List Nat)) : List (String × List Nat) :=
  setFile (setFile (setFile (setFile fs "x86_test.bin" x86_payload)
    "arm_test.bin" arm_payload) "x64_test.bin" x64_payload)
    "test_payload.bin" simple_payload

/-- The state after the first (x86) write of a run. -/
def afterX86 (s : State) : State :=
  ⟨setFile s.files "x86_test.bin" x86_payload, s.log ++ [("x86_test.bin", x86_payload)]⟩

/-- The state after the first two (x86, ARM) writes of a run. -/
def afterArm (s : State) : State :=
  ⟨setFile (afterX86 s).files "arm_test.bin" arm_payload,
   (afterX86 s).log ++ [("arm_test.bin", arm_payload)]⟩

/-- The state after the first three (x86, ARM, x64) writes of a run. -/
def afterX64 (s : State) : State :=
  ⟨setFile (afterArm s).files "x64_test.bin" x64_payload,
   (afterArm s).log ++ [("x64_test.bin", x64_payload)]⟩

/-- The state after all four writes of a run. -/
def afterSimple (s : State) : State :=
  ⟨setFile (afterX64 s).files "test_payload.bin" simple_payload,
   (afterX64 s).log ++ [("test_payload.bin", simple_payload)]⟩

theorem getFile_setFile_same (fs : List (String × List Nat)) (n : String) (c : List Nat) :
    getFile (setFile fs n c) n = some c := by
  induction fs with
  | nil => simp [setFile, getFile]
  | cons p rest ih =>
    obtain ⟨m, d⟩ := p
    by_cases h : m = n
    · simp [setFile, getFile, h]
    · simp [setFile, getFile, h, ih]

theorem getFile_setFile_other (fs : List (String × List Nat)) (n m : String)
    (c : List Nat) (h : m ≠ n) :
    getFile (setFile fs n c) m = getFile fs m := by
  induction fs with
  | nil => simp [setFile, getFile, Ne.symm h]
  | cons p rest ih =>
    obtain ⟨a, d⟩ := p
    by_cases ha : a = n
    · subst ha
      simp [setFile, getFile, Ne.symm h]
    · simp [setFile, getFile, ha, ih]

theorem gen_x86_ok (w : String → Bool) (s s' : State) (k : Nat)
    (h : generate_x86_payload w s = Except.ok (s', k)) :
    w "x86_test.bin" = true ∧ s' = afterX86 s ∧ k = x86_payload.length := by
  cases hw : w "x86_test.bin" <;>
    simp [generate_x86_payload, writeFile, hw] at h
  exact ⟨rfl, by simp [afterX86, ← h.1], h.2.symm⟩

theorem gen_arm_ok (w : String → Bool) (s s' : State) (k : Nat)
    (h : generate_arm_payload w s = Except.ok (s', k)) :
    w "arm_test.bin" = true ∧
    s' = ⟨setFile s.files "arm_test.bin" arm_payload,
          s.log ++ [("arm_test.bin", arm_payload)]⟩ ∧
    k = arm_payload.length := by
  cases hw : w "arm_test.bin" <;>
    simp [generate_arm_payload, writeFile, hw] at h
  exact ⟨rfl, by simp [← h.1], h.2.symm⟩

theorem gen_x64_ok (w : String → Bool) (s s' : State) (k : Nat)
    (h : generate_x64_payload w s = Except.ok (s', k)) :
    w "x64_test.bin" = true ∧
    s' = ⟨setFile s.files "x64_test.bin" x64_payload,
          s.log ++ [("x64_test.bin", x64_payload)]⟩ ∧
    k = x64_payload.length := by
  cases hw : w "x64_test.bin" <;>
    simp [generate_x64_payload, writeFile, hw] at h
  exact ⟨rfl, by simp [← h.1], h.2.symm⟩

theorem gen_simple_ok (w : String → Bool) (s s' : State) (k : Nat)
    (h : generate_simple_payload w s = Except.ok (s', k)) :
    w "test_payload.bin" = true ∧
    s' = ⟨setFile s.files "test_payload.bin" simple_payload,
          s.log ++ [("test_payload.bin", simple_payload)]⟩ ∧
    k = simple_payload.length := by
  cases hw : w "test_payload.bin" <;>
    simp [generate_simple_payload, writeFile, hw] at h
  exact ⟨rfl, by simp [← h.1], h.2.symm⟩

theorem main_ok (w : String → Bool) (s s' : State) (h : main w s = Except.ok s') :
    w "x86_test.bin" = true ∧ w "arm_test.bin" = true ∧
    w "x64_test.bin" = true ∧ w "test_payload.bin" = true ∧
    s'.files = mainFiles s.files ∧
    s'.log = s.log ++ [("x86_test.bin", x86_payload), ("arm_test.bin", arm_payload),
      ("x64_test.bin", x64_payload), ("test_payload.bin", simple_payload)] := by
  cases h86 : w "x86_test.bin" <;> cases harm : w "arm_test.bin" <;>
    cases h64 : w "x64_test.bin" <;> cases hsim : w "test_payload.bin" <;>
    simp [main, generate_x86_payload, generate_arm_payload, generate_x64_payload,
      generate_simple_payload, writeFile, h86, harm, h64, hsim] at h
  subst h
  refine ⟨rfl, rfl, rfl, rfl, ?_, ?_⟩ <;> simp [mainFiles]

theorem main_all_ok (w : String → Bool) (s : State)
    (h86 : w "x86_test.bin" = true) (harm : w "arm_test.bin" = true)
    (h64 : w "x64_test.bin" = true) (hsim : w "test_payload.bin" = true) :
    main w s = Except.ok (afterSimple s) := by
  simp [main, generate_x86_payload, generate_arm_payload, generate_x64_payload,
    generate_simple_payload, writeFile, h86, harm, h64, hsim,
    afterSimple, afterX64, afterArm, afterX86]

theorem getFile_mainFiles (fs : List (String × List Nat)) :
    getFile (mainFiles fs) "x86_test.bin" = some x86_payload ∧
    getFile (mainFiles fs) "arm_test.bin" = some arm_payload ∧
    getFile (mainFiles fs) "x64_test.bin" = some x64_payload ∧
    getFile (mainFiles fs) "test_payload.bin" = some simple_payload := by
  refine ⟨?_, ?_, ?_, ?_⟩ <;> rw [mainFiles]
  · rw [getFile_setFile_other _ _ _ _ (by decide), getFile_setFile_other _ _ _ _ (by decide),
      getFile_setFile_other _ _ _ _ (by decide), getFile_setFile_same]
  · rw [getFile_setFile_other _ _ _ _ (by decide), getFile_setFile_other _ _ _ _ (by decide),
      getFile_setFile_same]
  · rw [getFile_setFile_other _ _ _ _ (by decide), getFile_setFile_same]
  · rw [getFile_setFile_same]

/-- Claim C1, counterexample: the x86 generator, run with every write
succeeding on an empty file system, writes a payload of 17 bytes to
`x86_test.bin`, not the 23 bytes the claim states. -/
theorem C1_counterexample :
    (generate_x86_payload (fun _ => true) ⟨[], []⟩).toOption.map
        (fun p => (getFile p.1.files "x86_test.bin").map List.length) ≠
      some (some 23) := by
  decide

/-- Claim C1 (amended): the x86 payload generator, when its file write
succeeds, writes to `x86_test.bin` a fixed byte sequence of exactly 17
bytes encoding, in order, a load immediate, an add immediate, an
increment, a decrement, a stack push, a stack pop, a no-op, and a short
backward relative jump. -/
theorem C1_x86_content (w : String → Bool) (s : State) (h : w "x86_test.bin" = true) :
    ∃ s', generate_x86_payload w s = Except.ok (s', 17) ∧
      getFile s'.files "x86_test.bin" =
        some ([0xB8, 0x01, 0x00, 0x00, 0x00] ++ [0x05, 0x64, 0x00, 0x00, 0x00] ++
          [0x40] ++ [0x48] ++ [0x50] ++ [0x58] ++ [0x90] ++ [0xEB, 0xF0]) ∧
      (getFile s'.files "x86_test.bin").map List.length = some 17 := by
  refine ⟨afterX86 s, ?_, ?_, ?_⟩
  · simp [generate_x86_payload, writeFile, h, afterX86, x86_payload]
  · rw [afterX86]
    rw [getFile_setFile_same]
    decide
  · rw [afterX86]
    rw [getFile_setFile_same]
    decide

/-- Claim C1 witness: the amended property holds concretely with every
write succeeding, starting from the empty file system. -/
theorem C1_witness :
    ∃ s', generate_x86_payload (fun _ => true) ⟨[], []⟩ = Except.ok (s', 17) ∧
      getFile s'.files "x86_test.bin" =
        some ([0xB8, 0x01, 0x00, 0x00, 0x00] ++ [0x05, 0x64, 0x00, 0x00, 0x00] ++
          [0x40] ++ [0x48] ++ [0x50] ++ [0x58] ++ [0x90] ++ [0xEB, 0xF0]) ∧
      (getFile s'.files "x86_test.bin").map List.length = some 17 :=
  C1_x86_content (fun _ => true) ⟨[], []⟩ rfl

/-- Claim C2, counterexample: the x64 generator, run with every write
succeeding on an empty file system, writes a payload of 23 bytes to
`x64_test.bin`, not the 26 bytes the claim states. -/
theorem C2_counterexample :
    (generate_x64_payload (fun _ => true) ⟨[], []⟩).toOption.map
        (fun p => (getFile p.1.files "x64_test.bin").map List.length) ≠
      some (some 26) := by
  decide

/-- Claim C2 (amended): the x64 payload generator, when its file write
succeeds, writes to `x64_test.bin` a fixed byte sequence of exactly 23
bytes encoding, in order, a move immediate, an add immediate, an
increment, a decrement, a push, a pop, and a short jump with a fixed
displacement. -/
theorem C2_x64_content (w : String → Bool) (s : State) (h : w "x64_test.bin" = true) :
    ∃ s', generate_x64_payload w s = Except.ok (s', 23) ∧
      getFile s'.files "x64_test.bin" =
        some ([0x48, 0xC7, 0xC0, 0x01, 0x00, 0x00, 0x00] ++
          [0x48, 0x05, 0x64, 0x00, 0x00, 0x00] ++ [0x48, 0xFF, 0xC0] ++
          [0x48, 0xFF, 0xC8] ++ [0x50] ++ [0x58] ++ [0xEB, 0xE9]) ∧
      (getFile s'.files "x64_test.bin").map List.length = some 23 := by
  refine ⟨⟨setFile s.files "x64_test.bin" x64_payload,
    s.log ++ [("x64_test.bin", x64_payload)]⟩, ?_, ?_, ?_⟩
  · simp [generate_x64_payload, writeFile, h, x64_payload]
  · rw [getFile_setFile_same]
    decide
  · rw [getFile_setFile_same]
    decide

/-- Claim C2 witness: the amended property holds concretely with every
write succeeding, starting from the empty file system. -/
theorem C2_witness :
    ∃ s', generate_x64_payload (fun _ => true) ⟨[], []⟩ = Except.ok (s', 23) ∧
      getFile s'.files "x64_test.bin" =
        some ([0x48, 0xC7, 0xC0, 0x01, 0x00, 0x00, 0x00] ++
          [0x48, 0x05, 0x64, 0x00, 0x00, 0x00] ++ [0x48, 0xFF, 0xC0] ++
          [0x48, 0xFF, 0xC8] ++ [0x50] ++ [0x58] ++ [0xEB, 0xE9]) ∧
      (getFile s'.files "x64_test.bin").map List.length = some 23 :=
  C2_x64_content (fun _ => true) ⟨[], []⟩ rfl

/-- Claim C5: the simple payload generator, when its file write succeeds,
writes to `test_payload.bin` exactly the 8 bytes 0x01 through 0x08 in
order. -/
theorem C5_simple_content (w : String → Bool) (s : State) (h : w "test_payload.bin" = true) :
    ∃ s', generate_simple_payload w s = Except.ok (s', 8) ∧
      getFile s'.files "test_payload.bin" =
        some [0x01, 0x02, 0x03, 0x04, 0x05, 0x06, 0x07, 0x08] ∧
      (getFile s'.files "test_payload.bin").map List.length = some 8 := by
  refine ⟨⟨setFile s.files "test_payload.bin" simple_payload,
    s.log ++ [("test_payload.bin", simple_payload)]⟩, ?_, ?_, ?_⟩
  · simp [generate_simple_payload, writeFile, h, simple_payload]
  · rw [getFile_setFile_same]
    decide
  · rw [getFile_setFile_same]
    decide

/-- Claim C5 witness: the property holds concretely with every write
succeeding, starting from the empty file system. -/
theorem C5_witness :
    ∃ s', generate_simple_payload (fun _ => true) ⟨[], []⟩ = Except.ok (s', 8) ∧
      getFile s'.files "test_payload.bin" =
        some [0x01, 0x02, 0x03, 0x04, 0x05, 0x06, 0x07, 0x08] ∧
      (getFile s'.files "test_payload.bin").map List.length = some 8 :=
  C5_simple_content (fun _ => true) ⟨[], []⟩ rfl

/-- Claim C3, counterexample: running `main` in an empty writable
directory produces files whose sizes sum to 64 bytes, not the 73 bytes
the claim states. -/
theorem C3_counterexample :
    (main (fun _ => true) ⟨[], []⟩).toOption.map
        (fun s => (s.files.map (fun p => p.2.length)).sum) ≠ some 73 := by
  decide

/-- Claim C3 (amended): when the entry routine is invoked in an empty
writable directory and all writes succeed, exactly four files exist
afterwards, named `x86_test.bin`, `arm_test.bin`, `x64_test.bin`, and
`test_payload.bin`, and the sum of their sizes in bytes is exactly 64. -/
theorem C3_four_files (w : String → Bool)
    (h86 : w "x86_test.bin" = true) (harm : w "arm_test.bin" = true)
    (h64 : w "x64_test.bin" = true) (hsim : w "test_payload.bin" = true) :
    ∃ s', main w ⟨[], []⟩ = Except.ok s' ∧
      s'.files.map Prod.fst =
        ["x86_test.bin", "arm_test.bin", "x64_test.bin", "test_payload.bin"] ∧
      s'.files.length = 4 ∧
      (s'.files.map (fun p => p.2.length)).sum = 64 := by
  refine ⟨afterSimple ⟨[], []⟩, main_all_ok w ⟨[], []⟩ h86 harm h64 hsim, ?_, ?_, ?_⟩ <;>
    decide

/-- Claim C3 witness: the amended property holds concretely with every
write succeeding. -/
theorem C3_witness :
    ∃ s', main (fun _ => true) ⟨[], []⟩ = Except.ok s' ∧
      s'.files.map Prod.fst =
        ["x86_test.bin", "arm_test.bin", "x64_test.bin", "test_payload.bin"] ∧
      s'.files.length = 4 ∧
      (s'.files.map (fun p => p.2.length)).sum = 64 :=
  C3_four_files (fun _ => true) rfl rfl rfl rfl

/-- Claim C4: the ARM payload generator, when its file write succeeds,
writes to `arm_test.bin` a fixed 16-byte sequence that is the
concatenation of four 32-bit little-endian words: a move immediate
(`0xE3A00001`), an add immediate (`0xE2800064`), a compare immediate
(`0xE3500032`), and a branch whose condition field is 1 (`NE`) and whose
24-bit displacement field has its sign bit set (a fixed negative
displacement, `0x1AFFFFF9`). -/
theorem C4_arm_content (w : String → Bool) (s : State) (h : w "arm_test.bin" = true) :
    ∃ s', generate_arm_payload w s = Except.ok (s', 16) ∧
      getFile s'.files "arm_test.bin" =
        some (leWord 0xE3A00001 ++ leWord 0xE2800064 ++
          leWord 0xE3500032 ++ leWord 0x1AFFFFF9) ∧
      (getFile s'.files "arm_test.bin").map List.length = some 16 ∧
      0x1AFFFFF9 / 2 ^ 28 = 1 ∧ 2 ^ 23 ≤ 0x1AFFFFF9 % 2 ^ 24 := by
  refine ⟨⟨setFile s.files "arm_test.bin" arm_payload,
    s.log ++ [("arm_test.bin", arm_payload)]⟩, ?_, ?_, ?_, by decide, by decide⟩
  · simp [generate_arm_payload, writeFile, h, arm_payload]
  · rw [getFile_setFile_same]
    decide
  · rw [getFile_setFile_same]
    decide

/-- Claim C4 witness: the property holds concretely with every write
succeeding, starting from the empty file system. -/
theorem C4_witness :
    ∃ s', generate_arm_payload (fun _ => true) ⟨[], []⟩ = Except.ok (s', 16) ∧
      getFile s'.files "arm_test.bin" =
        some (leWord 0xE3A00001 ++ leWord 0xE2800064 ++
          leWord 0xE3500032 ++ leWord 0x1AFFFFF9) ∧
      (getFile s'.files "arm_test.bin").map List.length = some 16 ∧
      0x1AFFFFF9 / 2 ^ 28 = 1 ∧ 2 ^ 23 ≤ 0x1AFFFFF9 % 2 ^ 24 :=
  C4_arm_content (fun _ => true) ⟨[], []⟩ rfl

/-- Claim C6: for every pair of successful invocations of `main` against
the same file system, the second invocation leaves each of the four
output files with content bitwise identical to the content after the
first invocation (re-running is idempotent). -/
theorem C6_idempotent (w : String → Bool) (s s1 s2 : State)
    (h1 : main w s = Except.ok s1) (h2 : main w s1 = Except.ok s2) :
    getFile s2.files "x86_test.bin" = getFile s1.files "x86_test.bin" ∧
    getFile s2.files "arm_test.bin" = getFile s1.files "arm_test.bin" ∧
    getFile s2.files "x64_test.bin" = getFile s1.files "x64_test.bin" ∧
    getFile s2.files "test_payload.bin" = getFile s1.files "test_payload.bin" ∧
    getFile s1.files "x86_test.bin" = some x86_payload ∧
    getFile s1.files "arm_test.bin" = some arm_payload ∧
    getFile s1.files "x64_test.bin" = some x64_payload ∧
    getFile s1.files "test_payload.bin" = some simple_payload := by
  obtain ⟨-, -, -, -, hf1, -⟩ := main_ok w s s1 h1
  obtain ⟨-, -, -, -, hf2, -⟩ := main_ok w s1 s2 h2
  rw [hf2, hf1]
  have hA := getFile_mainFiles (mainFiles s.files)
  have hB := getFile_mainFiles s.files
  exact ⟨by rw [hA.1, hB.1], by rw [hA.2.1, hB.2.1], by rw [hA.2.2.1, hB.2.2.1],
    by rw [hA.2.2.2, hB.2.2.2], hB.1, hB.2.1, hB.2.2.1, hB.2.2.2⟩

/-- Claim C6 witness: two concrete successive runs from the empty file
system leave `x86_test.bin` bitwise identical. -/
theorem C6_witness :
    getFile (afterSimple (afterSimple ⟨[], []⟩)).files "x86_test.bin" =
      getFile (afterSimple ⟨[], []⟩).files "x86_test.bin" :=
  (C6_idempotent (fun _ => true) ⟨[], []⟩ (afterSimple ⟨[], []⟩)
    (afterSimple (afterSimple ⟨[], []⟩))
    (main_all_ok (fun _ => true) ⟨[], []⟩ rfl rfl rfl rfl)
    (main_all_ok (fun _ => true) (afterSimple ⟨[], []⟩) rfl rfl rfl rfl)).1

/-- Claim C7: `main` invokes the four generators unconditionally and in
the fixed order x86, ARM, x64, simple: whenever all four names are
writable the run succeeds (no other condition is consulted), and every
successful run appends exactly the four write events to the log in that
order. -/
theorem C7_order (w : String → Bool) (s : State) :
    ((w "x86_test.bin" = true ∧ w "arm_test.bin" = true ∧
      w "x64_test.bin" = true ∧ w "test_payload.bin" = true) →
      main w s = Except.ok (afterSimple s)) ∧
    (∀ s', main w s = Except.ok s' →
      s'.log = s.log ++ [("x86_test.bin", x86_payload), ("arm_test.bin", arm_payload),
        ("x64_test.bin", x64_payload), ("test_payload.bin", simple_payload)]) := by
  constructor
  · rintro ⟨h1, h2, h3, h4⟩
    exact main_all_ok w s h1 h2 h3 h4
  · intro s' h
    exact (main_ok w s s' h).2.2.2.2.2

/-- Claim C7 witness: with every write succeeding from the empty state,
the run succeeds and the log records the four writes in order. -/
theorem C7_witness :
    main (fun _ => true) ⟨[], []⟩ = Except.ok (afterSimple ⟨[], []⟩) ∧
    (afterSimple ⟨[], []⟩).log =
      ([] : List (String × List Nat)) ++ [("x86_test.bin", x86_payload),
        ("arm_test.bin", arm_payload), ("x64_test.bin", x64_payload),
        ("test_payload.bin", simple_payload)] :=
  ⟨(C7_order (fun _ => true) ⟨[], []⟩).1 ⟨rfl, rfl, rfl, rfl⟩,
   (C7_order (fun _ => true) ⟨[], []⟩).2 (afterSimple ⟨[], []⟩)
     ((C7_order (fun _ => true) ⟨[], []⟩).1 ⟨rfl, rfl, rfl, rfl⟩)⟩

/-- Claim C8: when a write fails, `main` performs no local recovery: the
error names the failed file and carries exactly the state accumulated by
the earlier writes (which remain on disk, unchanged, and no later
generator has run); in particular when no name is writable (a read-only
directory) the very first write, `x86_test.bin`, fails with the initial
state untouched. -/
theorem C8_abort (w : String → Bool) (s : State) :
    (∀ n s', main w s = Except.error (n, s') →
      w n = false ∧
      ((n = "x86_test.bin" ∧ s' = s) ∨
       (n = "arm_test.bin" ∧ s' = afterX86 s) ∨
       (n = "x64_test.bin" ∧ s' = afterArm s) ∨
       (n = "test_payload.bin" ∧ s' = afterX64 s))) ∧
    ((∀ m, w m = false) → main w s = Except.error ("x86_test.bin", s)) := by
  constructor
  · intro n s' h
    cases h86 : w "x86_test.bin" <;> cases harm : w "arm_test.bin" <;>
      cases h64 : w "x64_test.bin" <;> cases hsim : w "test_payload.bin" <;>
      simp [main, generate_x86_payload, generate_arm_payload, generate_x64_payload,
        generate_simple_payload, writeFile, h86, harm, h64, hsim] at h <;>
      obtain ⟨hn, hs⟩ := h <;> subst hn <;> subst hs <;>
      first
        | exact ⟨h86, Or.inl ⟨rfl, rfl⟩⟩
        | exact ⟨harm, Or.inr (Or.inl ⟨rfl, by simp [afterX86]⟩)⟩
        | exact ⟨h64, Or.inr (Or.inr (Or.inl ⟨rfl, by simp [afterArm, afterX86]⟩))⟩
        | exact ⟨hsim, Or.inr (Or.inr (Or.inr
            ⟨rfl, by simp [afterX64, afterArm, afterX86]⟩))⟩
  · intro hall
    simp [main, generate_x86_payload, writeFile, hall "x86_test.bin"]

/-- Claim C8 witness: with no name writable (read-only directory) from
the empty state, `main` fails on `x86_test.bin` with the state intact. -/
theorem C8_witness :
    main (fun _ => false) ⟨[], []⟩ = Except.error ("x86_test.bin", ⟨[], []⟩) :=
  (C8_abort (fun _ => false) ⟨[], []⟩).2 (fun _ => rfl)

/-- Claim C9: each generator, on success, writes exactly its own
designated file and leaves every other file byte-for-byte unchanged. -/
theorem C9_frame (w : String → Bool) (s s' : State) (k : Nat) :
    (generate_x86_payload w s = Except.ok (s', k) →
      getFile s'.files "x86_test.bin" = some x86_payload ∧
      ∀ m, m ≠ "x86_test.bin" → getFile s'.files m = getFile s.files m) ∧
    (generate_arm_payload w s = Except.ok (s', k) →
      getFile s'.files "arm_test.bin" = some arm_payload ∧
      ∀ m, m ≠ "arm_test.bin" → getFile s'.files m = getFile s.files m) ∧
    (generate_x64_payload w s = Except.ok (s', k) →
      getFile s'.files "x64_test.bin" = some x64_payload ∧
      ∀ m, m ≠ "x64_test.bin" → getFile s'.files m = getFile s.files m) ∧
    (generate_simple_payload w s = Except.ok (s', k) →
      getFile s'.files "test_payload.bin" = some simple_payload ∧
      ∀ m, m ≠ "test_payload.bin" → getFile s'.files m = getFile s.files m) := by
  refine ⟨?_, ?_, ?_, ?_⟩ <;> intro h
  · obtain ⟨-, hs, -⟩ := gen_x86_ok w s s' k h
    subst hs
    exact ⟨getFile_setFile_same _ _ _, fun m hm => getFile_setFile_other _ _ _ _ hm⟩
  · obtain ⟨-, hs, -⟩ := gen_arm_ok w s s' k h
    subst hs
    exact ⟨getFile_setFile_same _ _ _, fun m hm => getFile_setFile_other _ _ _ _ hm⟩
  · obtain ⟨-, hs, -⟩ := gen_x64_ok w s s' k h
    subst hs
    exact ⟨getFile_setFile_same _ _ _, fun m hm => getFile_setFile_other _ _ _ _ hm⟩
  · obtain ⟨-, hs, -⟩ := gen_simple_ok w s s' k h
    subst hs
    exact ⟨getFile_setFile_same _ _ _, fun m hm => getFile_setFile_other _ _ _ _ hm⟩

/-- Claim C9 witness: running the x86 generator over a file system
already holding `keep.bin` leaves `keep.bin` unchanged. -/
theorem C9_witness :
    getFile (afterX86 ⟨[("keep.bin", [0xAA])], []⟩).files "keep.bin" =
      getFile (State.mk [("keep.bin", [0xAA])] []).files "keep.bin" :=
  ((C9_frame (fun _ => true) ⟨[("keep.bin", [0xAA])], []⟩
      (afterX86 ⟨[("keep.bin", [0xAA])], []⟩) x86_payload.length).1 rfl).2
    "keep.bin" (by decide)

/-- Claim C10: for every generator, the byte count it prints (the length
of the in-memory payload at print time) equals the number of bytes the
written file holds. -/
theorem C10_reported_bytes (w : String → Bool) (s s' : State) (k : Nat) :
    (generate_x86_payload w s = Except.ok (s', k) →
      (getFile s'.files "x86_test.bin").map List.length = some k) ∧
    (generate_arm_payload w s = Except.ok (s', k) →
      (getFile s'.files "arm_test.bin").map List.length = some k) ∧
    (generate_x64_payload w s = Except.ok (s', k) →
      (getFile s'.files "x64_test.bin").map List.length = some k) ∧
    (generate_simple_payload w s = Except.ok (s', k) →
      (getFile s'.files "test_payload.bin").map List.length = some k) := by
  refine ⟨?_, ?_, ?_, ?_⟩ <;> intro h
  · obtain ⟨-, hs, hk⟩ := gen_x86_ok w s s' k h
    subst hs; subst hk
    rw [afterX86, getFile_setFile_same]
    rfl
  · obtain ⟨-, hs, hk⟩ := gen_arm_ok w s s' k h
    subst hs; subst hk
    rw [getFile_setFile_same]
    rfl
  · obtain ⟨-, hs, hk⟩ := gen_x64_ok w s s' k h
    subst hs; subst hk
    rw [getFile_setFile_same]
    rfl
  · obtain ⟨-, hs, hk⟩ := gen_simple_ok w s s' k h
    subst hs; subst hk
    rw [getFile_setFile_same]
    rfl

/-- Claim C10 witness: concretely, the x86 generator reports
`x86_payload.length` and the file holds that many bytes. -/
theorem C10_witness :
    (getFile (afterX86 ⟨[], []⟩).files "x86_test.bin").map List.length =
      some x86_payload.length :=
  (C10_reported_bytes (fun _ => true) ⟨[], []⟩ (afterX86 ⟨[], []⟩)
    x86_payload.length).1 rfl

end PayloadGen
